import Mathlib

/-!
Verification development for the trading-strategies repository.

The Python source is shallowly embedded: prices and other floats become `ℚ`,
Python ints become `ℤ` (or `ℕ` where the source guarantees non-negativity),
Python dicts become insertion-ordered association lists, and fallible code
returns `Option`.  Each definition mirrors one Python function and keeps its
name where Lean allows it.
-/

namespace Trading

/-! ### Insertion-ordered dictionaries (Python `dict` semantics) -/

/-- Python dict lookup `d.get(k)`: first (unique) binding for `k`. -/
def dictGet? {κ β : Type} [DecidableEq κ] (l : List (κ × β)) (k : κ) : Option β :=
  match l with
  | [] => none
  | (k', v) :: rest => if k' = k then some v else dictGet? rest k

/-- Python `d[k] = f(d.get(k))`: update in place if present, else append at the
end (Python dicts preserve first-insertion order of keys). -/
def dictUpsert {κ β : Type} [DecidableEq κ] (k : κ) (f : Option β → β) :
    List (κ × β) → List (κ × β)
  | [] => [(k, f none)]
  | (k', v) :: rest =>
      if k' = k then (k', f (some v)) :: rest else (k', v) :: dictUpsert k f rest

/-- Python `d[k] = v`. -/
def dictInsert {κ β : Type} [DecidableEq κ] (k : κ) (v : β) (l : List (κ × β)) :
    List (κ × β) :=
  dictUpsert k (fun _ => v) l

/-- Python `del d[k]`. -/
def dictErase {κ β : Type} [DecidableEq κ] (k : κ) : List (κ × β) → List (κ × β)
  | [] => []
  | (k', v) :: rest => if k' = k then rest else (k', v) :: dictErase k rest

/-! ### Auction Market Strategy
(`services/engine/app/strategies/auction_market_strategy.py`) -/

/-- Strategy parameter bundle (`AuctionMarketStrategy.__init__` defaults:
`min_aggression_score=70, atr_stop_multiplier=1.5, atr_target_multiplier=3.0`). -/
structure StrategyParams where
  min_aggression_score : ℕ
  atr_stop_multiplier : ℚ
  atr_target_multiplier : ℚ
deriving DecidableEq

/-- `AuctionMarketStrategy.calculate_aggression_score`. -/
def calculate_aggression_score (buy_pressure sell_pressure : ℚ) (cvd_momentum : ℤ) : ℕ :=
  let score : ℕ := 0
  let score := if 1000 ≤ |cvd_momentum| then score + 40
    else if 500 ≤ |cvd_momentum| then score + 20 else score
  let score := if 70 ≤ buy_pressure ∨ 70 ≤ sell_pressure then score + 40
    else if 60 ≤ buy_pressure ∨ 60 ≤ sell_pressure then score + 20 else score
  let score :=
    if 0 < buy_pressure ∧ 0 < sell_pressure then
      let ratioMax := max (buy_pressure / sell_pressure) (sell_pressure / buy_pressure)
      if 2 ≤ ratioMax then score + 20
      else if 3/2 ≤ ratioMax then score + 10 else score
    else score
  min score 100

/-- `AuctionMarketStrategy.determine_flow_direction`. -/
def determine_flow_direction (buy_pressure sell_pressure : ℚ) (cvd_momentum : ℤ) : String :=
  if 70 ≤ buy_pressure ∨ 500 < cvd_momentum then "BUY"
  else if 70 ≤ sell_pressure ∨ cvd_momentum < -500 then "SELL"
  else "NEUTRAL"

/-- The signal dict returned by `evaluate_entry_signal`. -/
structure Signal where
  symbol : String
  side : String
  entry_price : ℚ
  stop_loss : ℚ
  take_profit : ℚ
  atr : ℚ
  market_state : String
  confidence : ℤ
  aggression_score : ℕ
  flow_direction : String
  buy_pressure : ℚ
  sell_pressure : ℚ
  cvd_momentum : ℤ
  reason : String
deriving DecidableEq

/-- `AuctionMarketStrategy.evaluate_entry_signal` (the logging block has no
effect on the result and is omitted). -/
def evaluate_entry_signal (params : StrategyParams) (market_state : String)
    (confidence : ℤ) (buy_pressure sell_pressure : ℚ) (cvd_momentum : ℤ)
    (current_price atr : ℚ) (symbol : String) : Option Signal :=
  let aggression_score := calculate_aggression_score buy_pressure sell_pressure cvd_momentum
  let flow_direction := determine_flow_direction buy_pressure sell_pressure cvd_momentum
  if ¬ (market_state = "IMBALANCE_UP" ∨ market_state = "IMBALANCE_DOWN") then none
  else if aggression_score < params.min_aggression_score then none
  else if market_state = "IMBALANCE_UP" ∧ flow_direction ≠ "BUY" then none
  else if market_state = "IMBALANCE_DOWN" ∧ flow_direction ≠ "SELL" then none
  else if atr ≤ 0 then none
  else
    let side := if market_state = "IMBALANCE_UP" then "buy" else "sell"
    let stop_loss :=
      if side = "buy" then current_price - atr * params.atr_stop_multiplier
      else current_price + atr * params.atr_stop_multiplier
    let take_profit :=
      if side = "buy" then current_price + atr * params.atr_target_multiplier
      else current_price - atr * params.atr_target_multiplier
    some
      { symbol := symbol
        side := side
        entry_price := current_price
        stop_loss := stop_loss
        take_profit := take_profit
        atr := atr
        market_state := market_state
        confidence := confidence
        aggression_score := aggression_score
        flow_direction := flow_direction
        buy_pressure := buy_pressure
        sell_pressure := sell_pressure
        cvd_momentum := cvd_momentum
        reason := market_state ++ " + Aggressive " ++ flow_direction ++
          " (score: " ++ toString aggression_score ++ ")" }

/-! ### Backtest positions and portfolio (`services/engine/app/backtest_position.py`) -/

/-- Python `int(q)`: truncation toward zero of a float/rational. -/
def pyInt (q : ℚ) : ℤ :=
  Int.tdiv q.num q.den

/-- `backtest_position.Position` (constructor plus tracking fields). -/
structure BPosition where
  symbol : String
  symbol_id : ℕ
  entry_time : ℤ
  entry_price : ℚ
  quantity : ℤ
  stop_loss : ℚ
  take_profit : ℚ
  direction : String
  entry_reason : String
  market_state : String
  aggression_score : ℕ
  bars_in_trade : ℕ
  mae : ℚ
  mfe : ℚ
deriving DecidableEq

/-- `Position.update_metrics`. -/
def update_metrics (pos : BPosition) (current_price : ℚ) : BPosition :=
  let pos := { pos with bars_in_trade := pos.bars_in_trade + 1 }
  let unrealized_pnl := (current_price - pos.entry_price) * (pos.quantity : ℚ)
  let pos := if unrealized_pnl < pos.mae then { pos with mae := unrealized_pnl } else pos
  if pos.mfe < unrealized_pnl then { pos with mfe := unrealized_pnl } else pos

/-- `Position.should_exit` (evaluated against the bar close). -/
def should_exit (pos : BPosition) (current_price : ℚ) : Bool × String :=
  if pos.direction = "buy" then
    if current_price ≤ pos.stop_loss then (true, "Stop Loss")
    else if pos.take_profit ≤ current_price then (true, "Take Profit")
    else (false, "")
  else
    if pos.stop_loss ≤ current_price then (true, "Stop Loss")
    else if current_price ≤ pos.take_profit then (true, "Take Profit")
    else (false, "")

/-- The trade record appended by `BacktestPortfolio.exit_position`. -/
structure Trade where
  symbol_id : ℕ
  entry_time : ℤ
  entry_price : ℚ
  entry_reason : String
  exit_time : ℤ
  exit_price : ℚ
  exit_reason : String
  direction : String
  quantity : ℤ
  pnl : ℚ
  pnl_pct : ℚ
  stop_loss : ℚ
  take_profit : ℚ
  market_state : String
  aggressive_flow_score : ℕ
  bars_in_trade : ℕ
  duration_minutes : ℤ
  mae : ℚ
  mfe : ℚ
deriving DecidableEq

/-- `BacktestPortfolio` (times are epoch seconds; the equity curve entries are
`(time, equity, cash, positions_value, open_positions)`). -/
structure Portfolio where
  initial_capital : ℚ
  cash : ℚ
  max_positions : ℕ
  positions : List (String × BPosition)
  trades : List Trade
  equity_curve : List (ℤ × ℚ × ℚ × ℚ × ℕ)
  signals_generated : List (String × ℕ)
  signals_blocked : List (String × ℕ)
deriving DecidableEq

/-- `BacktestPortfolio.__init__`. -/
def mkPortfolio (initial_capital : ℚ) (max_positions : ℕ) : Portfolio :=
  { initial_capital := initial_capital
    cash := initial_capital
    max_positions := max_positions
    positions := []
    trades := []
    equity_curve := []
    signals_generated := []
    signals_blocked := [] }

/-- `BacktestPortfolio.get_available_position_slots` (`max(0, max_positions - len)`
is natural subtraction). -/
def get_available_position_slots (p : Portfolio) : ℕ :=
  p.max_positions - p.positions.length

/-- `BacktestPortfolio.get_available_cash`. -/
def get_available_cash (p : Portfolio) : ℚ :=
  p.cash

/-- `BacktestPortfolio.can_enter_position`. -/
def can_enter_position (p : Portfolio) (cost : ℚ) : Bool :=
  decide (0 < get_available_position_slots p) && decide (cost ≤ get_available_cash p)

/-- `BacktestPortfolio.enter_position`; returns the new portfolio and the
boolean result of the Python method. -/
def enter_position (p : Portfolio) (position : BPosition) (cost : ℚ) : Portfolio × Bool :=
  if ¬ can_enter_position p cost then (p, false)
  else if (dictGet? p.positions position.symbol).isSome then (p, false)
  else
    ({ p with
        positions := dictInsert position.symbol position p.positions
        cash := p.cash - cost
        signals_generated :=
          dictUpsert position.symbol (fun n => n.getD 0 + 1) p.signals_generated },
      true)

/-- `BacktestPortfolio.exit_position`; returns the new portfolio and the trade
record (`None` if no position exists for the symbol). -/
def exit_position (p : Portfolio) (symbol : String) (exit_price : ℚ) (exit_time : ℤ)
    (reason : String) : Portfolio × Option Trade :=
  match dictGet? p.positions symbol with
  | none => (p, none)
  | some position =>
      let pnl := (exit_price - position.entry_price) * (position.quantity : ℚ)
      let pnl_pct := (exit_price - position.entry_price) / position.entry_price * 100
      let trade : Trade :=
        { symbol_id := position.symbol_id
          entry_time := position.entry_time
          entry_price := position.entry_price
          entry_reason := position.entry_reason
          exit_time := exit_time
          exit_price := exit_price
          exit_reason := reason
          direction := position.direction
          quantity := position.quantity
          pnl := pnl
          pnl_pct := pnl_pct
          stop_loss := position.stop_loss
          take_profit := position.take_profit
          market_state := position.market_state
          aggressive_flow_score := position.aggression_score
          bars_in_trade := position.bars_in_trade
          duration_minutes := Int.tdiv (exit_time - position.entry_time) 60
          mae := position.mae
          mfe := position.mfe }
      ({ p with
          cash := p.cash + exit_price * (position.quantity : ℚ)
          positions := dictErase symbol p.positions
          trades := p.trades ++ [trade] },
        some trade)

/-! ### Backtest data loading and merging (`services/engine/app/backtest_data.py`) -/

/-- One candle bar dict as built by `BacktestDataLoader.load_candles`. -/
structure Bar where
  time : ℤ
  open_price : ℚ
  high : ℚ
  low : ℚ
  close : ℚ
  volume : ℕ
  symbol_id : ℕ
deriving DecidableEq

/-- `BacktestDataLoader.load_and_merge_candles`: builds the Python dict
`timestamp -> {symbol -> bar}`; both dict levels keep first-insertion key
order, exactly as CPython dicts do.  `load_candles` abstracts the per-symbol
SQL query, which returns bars sorted ascending by time. -/
def load_and_merge_candles (symbols : List String) (load_candles : String → List Bar) :
    List (ℤ × List (String × Bar)) :=
  symbols.foldl
    (fun all_bars_by_time symbol =>
      (load_candles symbol).foldl
        (fun acc bar =>
          dictUpsert bar.time (fun existing => dictInsert symbol bar (existing.getD [])) acc)
        all_bars_by_time)
    []

/-- The order in which `BacktestEngine.run_backtest` visits timestamps: it
iterates `all_bars_by_time.items()` directly, i.e. dict insertion order. -/
def mergedTimestamps (symbols : List String) (load_candles : String → List Bar) : List ℤ :=
  (load_and_merge_candles symbols load_candles).map Prod.fst

/-- Decidable check that a timestamp list is strictly ascending. -/
def strictlyAscending : List ℤ → Bool
  | [] => true
  | [_] => true
  | a :: b :: rest => decide (a < b) && strictlyAscending (b :: rest)

/-! ### Backtest engine entry phase (`services/engine/app/backtest_engine.py`) -/

/-- `BacktestEngine._calculate_position_cost`. -/
def calculate_position_cost (initial_capital risk_per_trade_pct : ℚ) (signal : Signal)
    (available_cash : ℚ) : ℚ :=
  let entry_price := signal.entry_price
  let risk_amount := initial_capital * (risk_per_trade_pct / 100)
  let stop_loss := signal.stop_loss
  let stop_distance := |entry_price - stop_loss|
  if stop_distance = 0 then 0
  else
    let quantity := pyInt (risk_amount / stop_distance)
    let cost := (quantity : ℚ) * entry_price
    if available_cash < cost then
      let max_quantity := pyInt (available_cash / entry_price)
      if 0 < max_quantity then (max_quantity : ℚ) * entry_price else 0
    else cost

/-- The `Position(...)` constructed from a signal in `run_backtest`. -/
def signal_to_position (symbol : String) (symbol_id : ℕ) (timestamp : ℤ) (signal : Signal)
    (position_cost : ℚ) : BPosition :=
  { symbol := symbol
    symbol_id := symbol_id
    entry_time := timestamp
    entry_price := signal.entry_price
    quantity := pyInt (position_cost / signal.entry_price)
    stop_loss := signal.stop_loss
    take_profit := signal.take_profit
    direction := signal.side
    entry_reason := signal.reason
    market_state := signal.market_state
    aggression_score := signal.aggression_score
    bars_in_trade := 0
    mae := 0
    mfe := 0 }

/-- Inner `for symbol in list(bars_at_time.keys())` loop of
`BacktestEngine.run_backtest` (lines 177-204), carrying the local
`available_slots` and `available_cash`. `signalFor` abstracts
`check_entry_signal` (a pure function of the stored history). -/
def entry_scan (risk_per_trade_pct : ℚ) (signalFor : String → Option Signal)
    (timestamp : ℤ) (p : Portfolio) (available_slots : ℕ) (available_cash : ℚ) :
    List (String × Bar) → Portfolio
  | [] => p
  | (symbol, bar) :: rest =>
      if (dictGet? p.positions symbol).isSome then
        entry_scan risk_per_trade_pct signalFor timestamp p available_slots available_cash rest
      else
        match signalFor symbol with
        | none =>
            entry_scan risk_per_trade_pct signalFor timestamp p available_slots available_cash rest
        | some signal =>
            let position_cost :=
              calculate_position_cost p.initial_capital risk_per_trade_pct signal available_cash
            if 0 < position_cost then
              let position := signal_to_position symbol bar.symbol_id timestamp signal position_cost
              match enter_position p position position_cost with
              | (p', true) =>
                  let slots' := available_slots - 1
                  let cash' := available_cash - position_cost
                  if slots' = 0 ∨ cash' ≤ 0 then p'
                  else entry_scan risk_per_trade_pct signalFor timestamp p' slots' cash' rest
              | (p', false) =>
                  entry_scan risk_per_trade_pct signalFor timestamp p' available_slots available_cash rest
            else
              entry_scan risk_per_trade_pct signalFor timestamp p available_slots available_cash rest

/-- The per-timestamp entry-signal phase of `BacktestEngine.run_backtest`
(lines 172-204): the scan only runs when a slot and cash are available. -/
def process_entries (p : Portfolio) (bars_at_time : List (String × Bar)) (timestamp : ℤ)
    (risk_per_trade_pct : ℚ) (signalFor : String → Option Signal) : Portfolio :=
  let available_slots := get_available_position_slots p
  let available_cash := get_available_cash p
  if 0 < available_slots ∧ 0 < available_cash then
    entry_scan risk_per_trade_pct signalFor timestamp p available_slots available_cash bars_at_time
  else p

/-! ### Market-state classifier (`services/engine/app/detectors/market_state.py`) -/

/-- `MarketStateDetector._determine_state`.  The Python function leaves `state`
unassigned until some rule fires (`if 'state' not in locals()`); this is
modelled with an `Option String` accumulator. -/
def determine_state (distance_from_poc : ℚ) (in_value_area : Bool) (current_price : ℚ)
    (vah val : ℚ) (momentum cvd_pressure : ℚ) : String × ℤ :=
  let state : Option String := none
  let confidence : ℤ := 0
  -- Rule 1: distance from POC
  let (state, confidence) :=
    if distance_from_poc < 1/2 then (some "BALANCE", confidence + 40)
    else if distance_from_poc < 1 then (state, confidence + 20)
    else (state, confidence + 30)
  -- Rule 2: value-area position
  let (state, confidence) :=
    if in_value_area then
      if distance_from_poc < 1 then (some "BALANCE", confidence + 30) else (state, confidence)
    else
      if vah < current_price then (some "IMBALANCE_UP", confidence + 30)
      else if current_price < val then (some "IMBALANCE_DOWN", confidence + 30)
      else (state, confidence)
  -- Rule 3: momentum
  let (state, confidence) :=
    if 50 < |momentum| then
      if 0 < momentum then (some "IMBALANCE_UP", confidence + 20)
      else (some "IMBALANCE_DOWN", confidence + 20)
    else if |momentum| < 20 then (some "BALANCE", confidence + 10)
    else (state, confidence)
  -- Rule 4: CVD pressure
  let (state, confidence) :=
    if 30 < |cvd_pressure| then
      if 0 < cvd_pressure then (some "IMBALANCE_UP", confidence + 10)
      else (some "IMBALANCE_DOWN", confidence + 10)
    else (state, confidence)
  -- Default to BALANCE if no rule fired, then clamp confidence to [0, 100]
  match state with
  | none => ("BALANCE", max 0 (min 100 (50 : ℤ)))
  | some s => (s, max 0 (min 100 confidence))

/-! ### Volume profile engine (`services/profile_calculator/app/main.py`) -/

/-- One `volume_profile` row value: `{total, buy, sell, count}`. -/
structure VPEntry where
  total : ℕ
  buy : ℕ
  sell : ℕ
  count : ℕ
deriving DecidableEq

def vpEmpty : VPEntry := ⟨0, 0, 0, 0⟩

/-- The per-tick row update of `compute_volume_profile`: add `size` to the
total, then apply the uptick/downtick rule (`price > prev → buy`,
`price < prev → sell`, tie or first tick → `buy += size // 2`,
`sell += size - size // 2`). -/
def tickUpd (prev_price : Option ℚ) (price : ℚ) (size : ℕ) (e : VPEntry) : VPEntry :=
  let e := { e with total := e.total + size, count := e.count + 1 }
  match prev_price with
  | some pp =>
      if pp < price then { e with buy := e.buy + size }
      else if price < pp then { e with sell := e.sell + size }
      else { e with buy := e.buy + size / 2, sell := e.sell + (size - size / 2) }
  | none => { e with buy := e.buy + size / 2, sell := e.sell + (size - size / 2) }

/-- One iteration of the tick loop in `compute_volume_profile`: state is the
profile dict plus `prev_price`; a tick is `(price, size)` with `size ≥ 0`. -/
def tickStep (st : List (ℚ × VPEntry) × Option ℚ) (tick : ℚ × ℕ) :
    List (ℚ × VPEntry) × Option ℚ :=
  let (profile, prev_price) := st
  let (price, size) := tick
  (dictUpsert price (fun o => tickUpd prev_price price size (o.getD vpEmpty)) profile, some price)

/-- `compute_volume_profile` (tick path): fold the uptick/downtick rule over
the bucket's ticks in time order. -/
def compute_volume_profile (ticks : List (ℚ × ℕ)) : List (ℚ × VPEntry) :=
  (ticks.foldl tickStep ([], none)).1

/-- Candle record as used by the fallback path (prices already parsed). -/
structure PCCandle where
  open_price : ℚ
  high : ℚ
  low : ℚ
  close : ℚ
  volume : ℕ
deriving DecidableEq

/-- Python `round(x, 2)` on a rational (ties differ from IEEE-754 bankers
rounding only on exact half-cent binary values, immaterial here). -/
def round2 (q : ℚ) : ℚ :=
  (round (q * 100) : ℤ) / 100

/-- Number of iterations of `while current <= high: ... current += step`
starting at `low`, for `step > 0`. -/
def numLevels (low high step : ℚ) : ℕ :=
  if high < low then 0 else (⌊(high - low) / step⌋).toNat + 1

/-- The price levels visited by the candle-path while loop
(`current = low; while current <= high: ... current += step`), each rounded to
two decimals like the Python code rounds `price_level`. -/
def candleLevels (low high step : ℚ) : List ℚ :=
  (List.range (numLevels low high step)).map (fun k => round2 (low + (k : ℚ) * step))

/-- The per-level row update of the candle path: distribute `vol_at_level`
with the precomputed truncated buy/sell shares. -/
def candleApply (vol_at_level buyAdd sellAdd : ℕ) (profile : List (ℚ × VPEntry))
    (price_level : ℚ) : List (ℚ × VPEntry) :=
  dictUpsert price_level
    (fun o =>
      let e := o.getD vpEmpty
      { e with
          total := e.total + vol_at_level
          count := e.count + 1
          buy := e.buy + buyAdd
          sell := e.sell + sellAdd })
    profile

/-- Processing of one candle in `compute_volume_profile_from_candles`
(`int(x * 0.6)` on a non-negative integer share is `x * 6 / 10` in ℕ). -/
def candleStep (profile : List (ℚ × VPEntry)) (c : PCCandle) : List (ℚ × VPEntry) :=
  let open_price := round2 c.open_price
  let high := round2 c.high
  let low := round2 c.low
  let close := round2 c.close
  let volume := c.volume
  let is_bullish := open_price ≤ close
  let price_range := high - low
  let price_range := if price_range = 0 then 1/100 else price_range
  let step := max (1/10) (price_range / 10)
  let vol_at_level := volume / 10
  let buyAdd := if is_bullish then vol_at_level * 6 / 10 else vol_at_level * 4 / 10
  let sellAdd := if is_bullish then vol_at_level * 4 / 10 else vol_at_level * 6 / 10
  (candleLevels low high step).foldl (candleApply vol_at_level buyAdd sellAdd) profile

/-- `compute_volume_profile_from_candles` (candle fallback path). -/
def compute_volume_profile_from_candles (candles : List PCCandle) : List (ℚ × VPEntry) :=
  candles.foldl candleStep []

/-! ### Arbitrage monitor and strategy
(`services/engine/app/utils/arbitrage_monitor.py`,
`services/engine/app/strategies/arbitrage_strategy.py`) -/

/-- The spread/arbitrage/profit computation of
`ArbitrageMonitor._try_insert_price_data` once both YES and NO quotes are
known (the code hard-codes `fees = Decimal('0')`).  Returns
`(spread, arbitrage_opportunity, estimated_profit_pct)`. -/
def binary_price_eval (yes_ask no_ask spread_threshold : ℚ) : ℚ × Bool × ℚ :=
  let spread := yes_ask + no_ask
  let is_arbitrage := decide (spread < spread_threshold)
  let estimated_profit_pct :=
    if 0 < spread then
      let gross_profit := 1 - spread
      let fees : ℚ := 0
      let net_profit := gross_profit - fees
      net_profit / spread * 100
    else 0
  (spread, is_arbitrage, estimated_profit_pct)

/-- The locked-profit computation of `ArbitrageStrategy.get_open_positions`. -/
def locked_profit (yes_qty no_qty yes_entry_price no_entry_price : ℚ) : ℚ :=
  let avg_qty := (yes_qty + no_qty) / 2
  let payout := avg_qty * 1
  let cost := yes_qty * yes_entry_price + no_qty * no_entry_price
  payout - cost

/-! ### Reachable portfolio states (sequences of enter/exit calls) -/

/-- One call to the mutating portfolio API. -/
inductive PortfolioOp where
  | enter (position : BPosition) (cost : ℚ)
  | exitPos (symbol : String) (exit_price : ℚ) (exit_time : ℤ) (reason : String)

/-- Execute one call (the Python methods mutate `self`; here the updated
portfolio is returned). -/
def applyOp (p : Portfolio) : PortfolioOp → Portfolio
  | .enter position cost => (enter_position p position cost).1
  | .exitPos symbol exit_price exit_time reason =>
      (exit_position p symbol exit_price exit_time reason).1

/-- Execute a sequence of calls. -/
def applyOps (p : Portfolio) (ops : List PortfolioOp) : Portfolio :=
  ops.foldl applyOp p

/-- Truthful fills: entered positions have non-negative quantity and exits are
filled at non-negative prices. -/
def TruthfulOp : PortfolioOp → Prop
  | .enter position _ => 0 ≤ position.quantity
  | .exitPos _ exit_price _ _ => 0 ≤ exit_price

/-- The inductive invariant for the portfolio bounds. -/
def PortfolioInv (p : Portfolio) : Prop :=
  p.positions.length ≤ p.max_positions ∧ 0 ≤ p.cash ∧
    ∀ kv ∈ p.positions, 0 ≤ kv.2.quantity

/-! ### Claim fixtures -/

/-- The S4 scenario parameters:
`min_aggression=70, atr_stop_mult=1.5, atr_target_mult=3.0`. -/
def s4_params : StrategyParams :=
  { min_aggression_score := 70, atr_stop_multiplier := 3/2, atr_target_multiplier := 3 }

/-- The signal produced at the S4 inputs. -/
def s4_signal : Signal :=
  { symbol := ""
    side := "buy"
    entry_price := 100
    stop_loss := 97
    take_profit := 106
    atr := 2
    market_state := "IMBALANCE_UP"
    confidence := 80
    aggression_score := 100
    flow_direction := "BUY"
    buy_pressure := 75
    sell_pressure := 25
    cvd_momentum := 1500
    reason := "IMBALANCE_UP + Aggressive BUY (score: 100)" }

/-- Two candle series whose start times differ: symbol A has bars at t=10 and
t=20, symbol B has a bar at t=5. -/
def c2_load : String → List Bar := fun symbol =>
  if symbol = "A" then
    [{ time := 10, open_price := 100, high := 101, low := 99, close := 100, volume := 10, symbol_id := 1 },
     { time := 20, open_price := 100, high := 102, low := 99, close := 101, volume := 12, symbol_id := 1 }]
  else if symbol = "B" then
    [{ time := 5, open_price := 50, high := 51, low := 49, close := 50, volume := 7, symbol_id := 2 }]
  else []

/-- A short position: entered at 100, 10 shares, direction `sell`. -/
def c3_position : BPosition :=
  { symbol := "X"
    symbol_id := 1
    entry_time := 0
    entry_price := 100
    quantity := 10
    stop_loss := 103
    take_profit := 94
    direction := "sell"
    entry_reason := "r"
    market_state := "IMBALANCE_DOWN"
    aggression_score := 80
    bars_in_trade := 0
    mae := 0
    mfe := 0 }

/-- A portfolio holding only the short position `c3_position`. -/
def c3_portfolio : Portfolio :=
  { mkPortfolio 1000 3 with cash := 0, positions := [("X", c3_position)] }

/-- A long position used in the C4 witness run. -/
def c4_position : BPosition :=
  { symbol := "X"
    symbol_id := 1
    entry_time := 0
    entry_price := 10
    quantity := 5
    stop_loss := 9
    take_profit := 13
    direction := "buy"
    entry_reason := "r"
    market_state := "IMBALANCE_UP"
    aggression_score := 80
    bars_in_trade := 0
    mae := 0
    mfe := 0 }

/-- A concrete enter/exit call sequence. -/
def c4_ops : List PortfolioOp :=
  [PortfolioOp.enter c4_position 50, PortfolioOp.exitPos "X" 9 60 "Stop Loss"]


/-- The single open position filling the one-slot portfolio of scenario S5. -/
def c10_position : BPosition :=
  { symbol := "AAPL"
    symbol_id := 1
    entry_time := 0
    entry_price := 50
    quantity := 10
    stop_loss := 47
    take_profit := 56
    direction := "buy"
    entry_reason := "r"
    market_state := "IMBALANCE_UP"
    aggression_score := 100
    bars_in_trade := 0
    mae := 0
    mfe := 0 }

/-- A portfolio with `max_positions = 1` already holding `c10_position`. -/
def c10_portfolio : Portfolio :=
  { mkPortfolio 100000 1 with cash := 99500, positions := [("AAPL", c10_position)] }

/-- The bar for the other symbol MSFT at the blocked timestamp. -/
def c10_bar : Bar :=
  { time := 600, open_price := 100, high := 101, low := 99, close := 100,
    volume := 1000, symbol_id := 2 }

/-- The valid S4-style signal evaluated by `check_entry_signal` for MSFT. -/
def c10_signal : Signal :=
  { s4_signal with symbol := "MSFT" }

/-- The signal source: a valid buy signal exists for MSFT. -/
def c10_signalFor : String → Option Signal := fun symbol =>
  if symbol = "MSFT" then
    evaluate_entry_signal s4_params "IMBALANCE_UP" 80 75 25 1500 100 2 "MSFT"
  else none

/-! ### Dictionary lemmas -/

theorem dictGet?_mem {κ β : Type} [DecidableEq κ] {l : List (κ × β)} {k : κ} {v : β}
    (h : dictGet? l k = some v) : (k, v) ∈ l := by
  induction l with
  | nil => simp [dictGet?] at h
  | cons hd tl ih =>
      obtain ⟨k', v'⟩ := hd
      by_cases hk : k' = k
      · subst hk
        simp [dictGet?] at h
        simp [h]
      · simp [dictGet?, hk] at h
        exact List.mem_cons_of_mem _ (ih h)

theorem mem_dictUpsert {κ β : Type} [DecidableEq κ] {l : List (κ × β)} {k : κ}
    {f : Option β → β} {kv : κ × β} (h : kv ∈ dictUpsert k f l) :
    kv ∈ l ∨ kv.2 = f none ∨ ∃ v, (k, v) ∈ l ∧ kv.2 = f (some v) := by
  induction l with
  | nil =>
      simp [dictUpsert] at h
      subst h
      exact Or.inr (Or.inl rfl)
  | cons hd tl ih =>
      obtain ⟨k', v'⟩ := hd
      by_cases hk : k' = k
      · subst hk
        simp [dictUpsert] at h
        rcases h with h | h
        · exact Or.inr (Or.inr ⟨v', by simp, by simp [h]⟩)
        · exact Or.inl (List.mem_cons_of_mem _ h)
      · simp [dictUpsert, hk] at h
        rcases h with h | h
        · exact Or.inl (by simp [h])
        · rcases ih h with h' | h' | ⟨v, hv, hv2⟩
          · exact Or.inl (List.mem_cons_of_mem _ h')
          · exact Or.inr (Or.inl h')
          · exact Or.inr (Or.inr ⟨v, List.mem_cons_of_mem _ hv, hv2⟩)

theorem mem_dictErase {κ β : Type} [DecidableEq κ] {l : List (κ × β)} {k : κ}
    {kv : κ × β} (h : kv ∈ dictErase k l) : kv ∈ l := by
  induction l with
  | nil => simp [dictErase] at h
  | cons hd tl ih =>
      obtain ⟨k', v'⟩ := hd
      by_cases hk : k' = k
      · simp [dictErase, hk] at h
        exact List.mem_cons_of_mem _ h
      · simp [dictErase, hk] at h
        rcases h with h | h
        · simp [h]
        · exact List.mem_cons_of_mem _ (ih h)

theorem length_dictErase_le {κ β : Type} [DecidableEq κ] (k : κ) (l : List (κ × β)) :
    (dictErase k l).length ≤ l.length := by
  induction l with
  | nil => simp [dictErase]
  | cons hd tl ih =>
      obtain ⟨k', v'⟩ := hd
      by_cases hk : k' = k
      · simp only [dictErase, if_pos hk, List.length_cons]
        exact Nat.le_succ _
      · simp only [dictErase, if_neg hk, List.length_cons]
        omega

theorem length_dictUpsert_of_not_mem {κ β : Type} [DecidableEq κ] {l : List (κ × β)}
    {k : κ} (f : Option β → β) (h : dictGet? l k = none) :
    (dictUpsert k f l).length = l.length + 1 := by
  induction l with
  | nil => simp [dictUpsert]
  | cons hd tl ih =>
      obtain ⟨k', v'⟩ := hd
      by_cases hk : k' = k
      · simp [dictGet?, hk] at h
      · simp [dictGet?, hk] at h
        simp [dictUpsert, hk, ih h]

theorem dictGet?_dictUpsert_self {κ β : Type} [DecidableEq κ] (l : List (κ × β))
    (k : κ) (f : Option β → β) :
    dictGet? (dictUpsert k f l) k = some (f (dictGet? l k)) := by
  induction l with
  | nil => simp [dictUpsert, dictGet?]
  | cons hd tl ih =>
      obtain ⟨k', v'⟩ := hd
      by_cases hk : k' = k
      · simp [dictUpsert, dictGet?, hk]
      · simp [dictUpsert, dictGet?, hk, ih]

theorem applyOp_inv (p : Portfolio) (op : PortfolioOp) (hop : TruthfulOp op)
    (h : PortfolioInv p) :
    PortfolioInv (applyOp p op) ∧ (applyOp p op).max_positions = p.max_positions := by
  obtain ⟨hlen, hcash, hqty⟩ := h
  cases op with
  | enter position cost =>
      simp only [applyOp, enter_position]
      by_cases hce : can_enter_position p cost = true
      · rw [if_neg (not_not_intro hce)]
        by_cases hsym : (dictGet? p.positions position.symbol).isSome = true
        · rw [if_pos hsym]
          exact ⟨⟨hlen, hcash, hqty⟩, rfl⟩
        · have hnone : dictGet? p.positions position.symbol = none :=
            Option.not_isSome_iff_eq_none.mp (by simpa using hsym)
          have hce' : 0 < get_available_position_slots p ∧ cost ≤ get_available_cash p := by
            simpa [can_enter_position] using hce
          rw [if_neg hsym]
          refine ⟨⟨?_, ?_, ?_⟩, rfl⟩
          · simp only [dictInsert, length_dictUpsert_of_not_mem _ hnone]
            have hlt : p.positions.length < p.max_positions := by
              have := hce'.1
              unfold get_available_position_slots at this
              omega
            omega
          · have := hce'.2
            unfold get_available_cash at this
            show 0 ≤ p.cash - cost
            linarith
          · intro kv hkv
            rcases mem_dictUpsert hkv with hmem | h2 | ⟨v, _, h2⟩
            · exact hqty kv hmem
            · rw [h2]; exact hop
            · rw [h2]; exact hop
      · rw [if_pos hce]
        exact ⟨⟨hlen, hcash, hqty⟩, rfl⟩
  | exitPos symbol exit_price exit_time reason =>
      cases hget : dictGet? p.positions symbol with
      | none =>
          simp only [applyOp, exit_position, hget]
          exact ⟨⟨hlen, hcash, hqty⟩, trivial⟩
      | some position =>
          simp only [applyOp, exit_position, hget]
          have hq : (0 : ℚ) ≤ (position.quantity : ℚ) := by
            exact_mod_cast hqty _ (dictGet?_mem hget)
          refine ⟨⟨?_, ?_, ?_⟩, trivial⟩
          · exact le_trans (length_dictErase_le symbol p.positions) hlen
          · exact add_nonneg hcash (mul_nonneg hop hq)
          · intro kv hkv
            exact hqty kv (mem_dictErase hkv)

theorem applyOps_inv (ops : List PortfolioOp) (p : Portfolio)
    (hops : ∀ op ∈ ops, TruthfulOp op) (h : PortfolioInv p) :
    PortfolioInv (applyOps p ops) ∧ (applyOps p ops).max_positions = p.max_positions := by
  induction ops generalizing p with
  | nil => exact ⟨h, rfl⟩
  | cons op ops ih =>
      have h1 := applyOp_inv p op (hops op (by simp)) h
      have h2 := ih (applyOp p op) (fun o ho => hops o (by simp [ho])) h1.1
      exact ⟨h2.1, h2.2.trans h1.2⟩

theorem tickUpd_sum (prev_price : Option ℚ) (price : ℚ) (size : ℕ) (e : VPEntry)
    (h : e.total = e.buy + e.sell) :
    (tickUpd prev_price price size e).total
      = (tickUpd prev_price price size e).buy + (tickUpd prev_price price size e).sell := by
  unfold tickUpd
  cases prev_price with
  | none =>
      dsimp only
      omega
  | some pp =>
      dsimp only
      split_ifs <;> dsimp only <;> omega

theorem compute_volume_profile_sum_aux (ticks : List (ℚ × ℕ))
    (st : List (ℚ × VPEntry) × Option ℚ)
    (h : ∀ kv ∈ st.1, kv.2.total = kv.2.buy + kv.2.sell) :
    ∀ kv ∈ (ticks.foldl tickStep st).1, kv.2.total = kv.2.buy + kv.2.sell := by
  induction ticks generalizing st with
  | nil => exact h
  | cons t ts ih =>
      refine ih (tickStep st t) ?_
      obtain ⟨profile, prev⟩ := st
      obtain ⟨price, size⟩ := t
      intro kv hkv
      simp only [tickStep] at hkv
      rcases mem_dictUpsert hkv with hmem | h2 | ⟨v, hv, h2⟩
      · exact h kv hmem
      · rw [h2]
        exact tickUpd_sum _ _ _ _ (by simp [vpEmpty])
      · rw [h2]
        exact tickUpd_sum _ _ _ _ (h (price, v) hv)

theorem candleApply_fold_le (vol_at_level buyAdd sellAdd : ℕ)
    (hbs : buyAdd + sellAdd ≤ vol_at_level) (levels : List ℚ)
    (profile : List (ℚ × VPEntry))
    (h : ∀ kv ∈ profile, kv.2.buy + kv.2.sell ≤ kv.2.total) :
    ∀ kv ∈ levels.foldl (candleApply vol_at_level buyAdd sellAdd) profile,
      kv.2.buy + kv.2.sell ≤ kv.2.total := by
  induction levels generalizing profile with
  | nil => exact h
  | cons lv lvs ih =>
      refine ih (candleApply vol_at_level buyAdd sellAdd profile lv) ?_
      intro kv hkv
      simp only [candleApply] at hkv
      rcases mem_dictUpsert hkv with hmem | h2 | ⟨v, hv, h2⟩
      · exact h kv hmem
      · rw [h2]
        simp only [Option.getD, vpEmpty]
        omega
      · rw [h2]
        have := h (lv, v) hv
        simp only [Option.getD]
        simp only at this
        omega

theorem candleStep_le (profile : List (ℚ × VPEntry)) (c : PCCandle)
    (h : ∀ kv ∈ profile, kv.2.buy + kv.2.sell ≤ kv.2.total) :
    ∀ kv ∈ candleStep profile c, kv.2.buy + kv.2.sell ≤ kv.2.total := by
  unfold candleStep
  refine candleApply_fold_le _ _ _ ?_ _ _ h
  split_ifs <;> omega

/-! ### Claim theorems -/

theorem s4_score : calculate_aggression_score 75 25 1500 = 100 := by
  norm_num [calculate_aggression_score]

theorem s4_flow : determine_flow_direction 75 25 1500 = "BUY" := by
  norm_num [determine_flow_direction]

theorem s4_eval :
    evaluate_entry_signal s4_params "IMBALANCE_UP" 80 75 25 1500 100 2 "" = some s4_signal := by
  unfold evaluate_entry_signal
  dsimp only
  rw [s4_score, s4_flow]
  norm_num [s4_params, s4_signal]
  exact ⟨fun hcon => absurd hcon (by decide), by rfl⟩

/-- C1: at the S4 inputs (`IMBALANCE_UP`, buy 75, sell 25, cvd 1500, price 100,
ATR 2, min_aggression 70, stop mult 1.5, target mult 3.0) the strategy emits a
buy signal with stop 97, take-profit 106 and aggression score 100 ≥ 70; and in
general every emitted signal is a buy with `stop = price - ATR·stop_mult`,
`target = price + ATR·target_mult` or a sell with the mirrored signs. -/
theorem evaluate_entry_signal_brackets
    (params : StrategyParams) (market_state : String) (confidence : ℤ)
    (buy_pressure sell_pressure : ℚ) (cvd_momentum : ℤ) (current_price atr : ℚ)
    (symbol : String) (sig : Signal)
    (h : evaluate_entry_signal params market_state confidence buy_pressure sell_pressure
      cvd_momentum current_price atr symbol = some sig) :
    ((evaluate_entry_signal s4_params "IMBALANCE_UP" 80 75 25 1500 100 2 "").map
        (fun s => (s.side, s.stop_loss, s.take_profit, s.aggression_score))
      = some ("buy", 97, 106, 100))
    ∧ (70 : ℕ) ≤ 100
    ∧ ((sig.side = "buy"
          ∧ sig.stop_loss = current_price - atr * params.atr_stop_multiplier
          ∧ sig.take_profit = current_price + atr * params.atr_target_multiplier)
        ∨ (sig.side = "sell"
          ∧ sig.stop_loss = current_price + atr * params.atr_stop_multiplier
          ∧ sig.take_profit = current_price - atr * params.atr_target_multiplier)) := by
  refine ⟨by rw [s4_eval]; rfl, by norm_num, ?_⟩
  unfold evaluate_entry_signal at h
  dsimp only at h
  by_cases hst : market_state = "IMBALANCE_UP" ∨ market_state = "IMBALANCE_DOWN"
  case neg =>
    rw [if_pos hst] at h
    exact absurd h (by simp)
  rw [if_neg (not_not_intro hst)] at h
  by_cases h2 : calculate_aggression_score buy_pressure sell_pressure cvd_momentum
      < params.min_aggression_score
  · rw [if_pos h2] at h
    exact absurd h (by simp)
  rw [if_neg h2] at h
  by_cases h3 : market_state = "IMBALANCE_UP"
      ∧ determine_flow_direction buy_pressure sell_pressure cvd_momentum ≠ "BUY"
  · rw [if_pos h3] at h
    exact absurd h (by simp)
  rw [if_neg h3] at h
  by_cases h4 : market_state = "IMBALANCE_DOWN"
      ∧ determine_flow_direction buy_pressure sell_pressure cvd_momentum ≠ "SELL"
  · rw [if_pos h4] at h
    exact absurd h (by simp)
  rw [if_neg h4] at h
  by_cases h5 : atr ≤ 0
  · rw [if_pos h5] at h
    exact absurd h (by simp)
  rw [if_neg h5] at h
  injection h with h
  subst h
  rcases hst with hup | hdown
  · subst hup
    left
    refine ⟨?_, ?_, ?_⟩ <;> simp
  · subst hdown
    right
    refine ⟨?_, ?_, ?_⟩ <;> simp

/-- C1 witness: the theorem applied at the S4 inputs themselves. -/
theorem evaluate_entry_signal_brackets_witness :
    evaluate_entry_signal s4_params "IMBALANCE_UP" 80 75 25 1500 100 2 "" = some s4_signal
    ∧ (((evaluate_entry_signal s4_params "IMBALANCE_UP" 80 75 25 1500 100 2 "").map
          (fun s => (s.side, s.stop_loss, s.take_profit, s.aggression_score))
        = some ("buy", 97, 106, 100))
      ∧ (70 : ℕ) ≤ 100
      ∧ ((s4_signal.side = "buy"
            ∧ s4_signal.stop_loss = 100 - 2 * s4_params.atr_stop_multiplier
            ∧ s4_signal.take_profit = 100 + 2 * s4_params.atr_target_multiplier)
          ∨ (s4_signal.side = "sell"
            ∧ s4_signal.stop_loss = 100 + 2 * s4_params.atr_stop_multiplier
            ∧ s4_signal.take_profit = 100 - 2 * s4_params.atr_target_multiplier))) :=
  ⟨s4_eval,
    evaluate_entry_signal_brackets s4_params "IMBALANCE_UP" 80 75 25 1500 100 2 ""
      s4_signal s4_eval⟩

/-- C2: the backtest driver iterates the merged timestamp dict in Python dict
insertion order, never sorting it; with symbol A listed first (bars at t=10,
t=20) and symbol B holding an earlier bar at t=5, the visit order is
10, 20, 5 — not strictly ascending as the spec requires. -/
theorem run_backtest_visit_order_not_ascending :
    mergedTimestamps ["A", "B"] c2_load = [10, 20, 5]
    ∧ strictlyAscending (mergedTimestamps ["A", "B"] c2_load) = false := by
  constructor <;> rfl

/-- C3: `exit_position` credits cash with `exit_price · quantity` and records
`pnl = (exit_price - entry_price) · quantity` whatever the position's
direction, and `update_metrics` tracks MAE/MFE with the same long-side
unrealized-pnl formula. -/
theorem exit_position_long_formula (p : Portfolio) (symbol : String) (exit_price : ℚ)
    (exit_time : ℤ) (reason : String) (position : BPosition) (current_price : ℚ)
    (h : dictGet? p.positions symbol = some position) :
    (exit_position p symbol exit_price exit_time reason).1.cash
        = p.cash + exit_price * (position.quantity : ℚ)
    ∧ ((exit_position p symbol exit_price exit_time reason).2.map Trade.pnl)
        = some ((exit_price - position.entry_price) * (position.quantity : ℚ))
    ∧ (update_metrics position current_price).mae
        = min position.mae ((current_price - position.entry_price) * (position.quantity : ℚ))
    ∧ (update_metrics position current_price).mfe
        = max position.mfe ((current_price - position.entry_price) * (position.quantity : ℚ)) := by
  refine ⟨?_, ?_, ?_, ?_⟩
  · simp [exit_position, h]
  · simp [exit_position, h]
  · unfold update_metrics
    dsimp only
    split_ifs with h1 h2 <;> dsimp only <;> rw [min_def] <;> split_ifs <;> first | rfl | linarith
  · unfold update_metrics
    dsimp only
    split_ifs with h1 h2 <;> dsimp only <;> rw [max_def] <;> split_ifs <;> first | rfl | linarith

/-- C3 witness: a `sell` position entered at 100 exited at 90 (a favorable
move for a short) is booked with pnl −100 and the cash credit 90·10. -/
theorem exit_position_long_formula_witness :
    dictGet? c3_portfolio.positions "X" = some c3_position
    ∧ ((exit_position c3_portfolio "X" 90 60 "tp").1.cash
          = c3_portfolio.cash + 90 * (c3_position.quantity : ℚ)
      ∧ ((exit_position c3_portfolio "X" 90 60 "tp").2.map Trade.pnl)
          = some ((90 - c3_position.entry_price) * (c3_position.quantity : ℚ))
      ∧ (update_metrics c3_position 90).mae
          = min c3_position.mae ((90 - c3_position.entry_price) * (c3_position.quantity : ℚ))
      ∧ (update_metrics c3_position 90).mfe
          = max c3_position.mfe ((90 - c3_position.entry_price) * (c3_position.quantity : ℚ)))
    ∧ ((90 : ℚ) - c3_position.entry_price) * (c3_position.quantity : ℚ) = -100 :=
  ⟨by decide,
    exit_position_long_formula c3_portfolio "X" 90 60 "tp" c3_position 90 (by decide),
    by norm_num [c3_position]⟩

/-- C4: starting from a non-negative initial capital, any sequence of
`enter_position` / `exit_position` calls with truthful fills (non-negative
entered quantities and exit prices) keeps the number of open positions at or
below `max_positions` and the cash non-negative. -/
theorem portfolio_bounds (initial_capital : ℚ) (max_positions : ℕ)
    (ops : List PortfolioOp) (h0 : 0 ≤ initial_capital)
    (hops : ∀ op ∈ ops, TruthfulOp op) :
    (applyOps (mkPortfolio initial_capital max_positions) ops).positions.length ≤ max_positions
    ∧ 0 ≤ (applyOps (mkPortfolio initial_capital max_positions) ops).cash := by
  have hinv : PortfolioInv (mkPortfolio initial_capital max_positions) := by
    refine ⟨by simp [mkPortfolio], by simpa [mkPortfolio] using h0, by simp [mkPortfolio]⟩
  have h := applyOps_inv ops _ hops hinv
  refine ⟨?_, h.1.2.1⟩
  have hlen := h.1.1
  rw [h.2] at hlen
  simpa [mkPortfolio] using hlen

/-- C4 witness: the bound applied to a concrete enter-then-exit run. -/
theorem portfolio_bounds_witness :
    (0 ≤ (100 : ℚ)) ∧ (∀ op ∈ c4_ops, TruthfulOp op)
    ∧ ((applyOps (mkPortfolio 100 2) c4_ops).positions.length ≤ 2
      ∧ 0 ≤ (applyOps (mkPortfolio 100 2) c4_ops).cash) := by
  have hT : ∀ op ∈ c4_ops, TruthfulOp op := by
    intro op hop
    simp only [c4_ops, List.mem_cons, List.not_mem_nil, or_false] at hop
    rcases hop with rfl | rfl
    · show (0 : ℤ) ≤ c4_position.quantity
      decide
    · show (0 : ℚ) ≤ 9
      norm_num
  exact ⟨by norm_num, hT, portfolio_bounds 100 2 c4_ops (by norm_num) hT⟩

/-- C5 counterexample: an input where no classification rule fires (inside the
value area, POC distance 2, momentum 30, CVD pressure 0) yields
`BALANCE` with confidence 50, not `UNKNOWN` with confidence 0. -/
theorem determine_state_no_rule_counterexample :
    ((1 : ℚ) ≤ 2 ∧ (20 : ℚ) ≤ |(30 : ℚ)| ∧ |(30 : ℚ)| ≤ 50 ∧ |(0 : ℚ)| ≤ 30)
    ∧ determine_state 2 true 100 110 90 30 0 = ("BALANCE", 50)
    ∧ determine_state 2 true 100 110 90 30 0 ≠ ("UNKNOWN", 0) := by
  refine ⟨by norm_num, ?_, ?_⟩
  · norm_num [determine_state]
  · norm_num [determine_state]

/-- C5 amended: whenever no classification rule fires — price inside the value
area with POC distance ≥ 1, momentum magnitude in [20, 50], CVD pressure
magnitude ≤ 30 — `_determine_state` returns `BALANCE` with confidence 50 (the
`if 'state' not in locals()` default), not `UNKNOWN, 0`. -/
theorem determine_state_no_rule_default (distance_from_poc : ℚ)
    (current_price vah val momentum cvd_pressure : ℚ)
    (h1 : 1 ≤ distance_from_poc) (h2 : 20 ≤ |momentum|) (h3 : |momentum| ≤ 50)
    (h4 : |cvd_pressure| ≤ 30) :
    determine_state distance_from_poc true current_price vah val momentum cvd_pressure
      = ("BALANCE", 50) := by
  have c1 : ¬ (distance_from_poc < (2 : ℚ)⁻¹) := by
    push_neg
    linarith
  have c2 : ¬ (distance_from_poc < 1) := by
    push_neg
    linarith
  have c3 : ¬ (50 < |momentum|) := by
    push_neg
    linarith
  have c4 : ¬ (|momentum| < 20) := by
    push_neg
    linarith
  have c5 : ¬ (30 < |cvd_pressure|) := by
    push_neg
    linarith
  simp [determine_state, c1, c2, c3, c4, c5]

/-- C5 witness: the amended claim applied at the counterexample input. -/
theorem determine_state_no_rule_default_witness :
    ((1 : ℚ) ≤ 2 ∧ (20 : ℚ) ≤ |(30 : ℚ)| ∧ |(30 : ℚ)| ≤ 50 ∧ |(0 : ℚ)| ≤ 30)
    ∧ determine_state 2 true 100 110 90 30 0 = ("BALANCE", 50) :=
  ⟨by norm_num,
    determine_state_no_rule_default 2 100 110 90 30 0 (by norm_num) (by norm_num)
      (by norm_num) (by norm_num)⟩

/-- C6 amended: on the tick path every profile row satisfies
`total = buy + sell` exactly; on the candle fallback the truncated 60/40 split
only guarantees `buy + sell ≤ total`. -/
theorem volume_profile_total_vs_buy_sell (ticks : List (ℚ × ℕ)) (candles : List PCCandle) :
    (∀ kv ∈ compute_volume_profile ticks, kv.2.total = kv.2.buy + kv.2.sell)
    ∧ (∀ kv ∈ compute_volume_profile_from_candles candles,
        kv.2.buy + kv.2.sell ≤ kv.2.total) := by
  constructor
  · exact compute_volume_profile_sum_aux ticks ([], none) (by simp)
  · unfold compute_volume_profile_from_candles
    have haux : ∀ (cs : List PCCandle) (prof : List (ℚ × VPEntry)),
        (∀ kv ∈ prof, kv.2.buy + kv.2.sell ≤ kv.2.total) →
        ∀ kv ∈ cs.foldl candleStep prof, kv.2.buy + kv.2.sell ≤ kv.2.total := by
      intro cs
      induction cs with
      | nil => exact fun prof h => h
      | cons c cs ih => exact fun prof h => ih _ (candleStep_le prof c h)
    exact haux candles [] (by simp)

/-- C6 counterexample: a single flat candle with volume 110 produces one row
with `total_vol = 11` but `buy_vol + sell_vol = 6 + 4 = 10`. -/
theorem candle_fallback_total_mismatch :
    compute_volume_profile_from_candles
        [{ open_price := 100, high := 100, low := 100, close := 100, volume := 110 }]
      = [(100, { total := 11, buy := 6, sell := 4, count := 1 })]
    ∧ ¬ ((11 : ℕ) = 6 + 4) := by
  constructor
  · norm_num [compute_volume_profile_from_candles, candleStep, candleApply, candleLevels,
      numLevels, round2, vpEmpty, dictUpsert, List.range, List.range.loop]
  · decide

/-- C6 witness: the tick-path half applied to a one-tick bucket. -/
theorem volume_profile_total_witness :
    (((100 : ℚ), ({ total := 5, buy := 2, sell := 3, count := 1 } : VPEntry))
        ∈ compute_volume_profile [(100, 5)])
    ∧ (5 : ℕ) = 2 + 3 :=
  ⟨by decide,
    (volume_profile_total_vs_buy_sell [(100, 5)] []).1
      ((100 : ℚ), { total := 5, buy := 2, sell := 3, count := 1 }) (by decide)⟩

/-- C7 counterexample: two ticks at the same price, the second of odd size 5,
leave the level with buy 2 and sell 3 — the odd remainder went to the sell
side, not buy (the claimed `ceil(5/2) = 3` on buy does not happen). -/
theorem tie_split_counterexample :
    compute_volume_profile [((100 : ℚ), (0 : ℕ)), (100, 5)]
      = [(100, { total := 5, buy := 2, sell := 3, count := 2 })]
    ∧ ¬ ((2 : ℕ) = (5 + 1) / 2) := by
  constructor
  · decide
  · decide

/-- C7 amended: for a tick at the same price as the previous tick with odd
size `s`, the tick path credits `s // 2` (floor) to the buy side and the
remainder `(s+1)/2` (ceiling) to the sell side. -/
theorem tie_split_remainder_to_sell (ticks : List (ℚ × ℕ)) (p : ℚ) (s : ℕ)
    (hprev : (ticks.foldl tickStep ([], none)).2 = some p) (hodd : s % 2 = 1) :
    ((dictGet? (compute_volume_profile (ticks ++ [(p, s)])) p).getD vpEmpty).buy
        = ((dictGet? (compute_volume_profile ticks) p).getD vpEmpty).buy + s / 2
    ∧ ((dictGet? (compute_volume_profile (ticks ++ [(p, s)])) p).getD vpEmpty).sell
        = ((dictGet? (compute_volume_profile ticks) p).getD vpEmpty).sell + (s + 1) / 2 := by
  unfold compute_volume_profile
  rw [List.foldl_append]
  rcases hst : ticks.foldl tickStep ([], none) with ⟨profile, prev⟩
  rw [hst] at hprev
  dsimp only at hprev
  subst hprev
  simp only [List.foldl, tickStep]
  rw [dictGet?_dictUpsert_self]
  simp only [Option.getD_some]
  unfold tickUpd
  dsimp only
  rw [if_neg (lt_irrefl p), if_neg (lt_irrefl p)]
  constructor
  · rfl
  · dsimp only
    omega

/-- C7 witness: the amended tie rule applied after a first tick at price 100,
with the odd size 5 split as buy 2 / sell 3. -/
theorem tie_split_remainder_to_sell_witness :
    (([((100 : ℚ), (0 : ℕ))].foldl tickStep ([], none)).2 = some 100 ∧ (5 : ℕ) % 2 = 1)
    ∧ (((dictGet? (compute_volume_profile ([((100 : ℚ), (0 : ℕ))] ++ [(100, 5)])) 100).getD
            vpEmpty).buy
          = ((dictGet? (compute_volume_profile [((100 : ℚ), (0 : ℕ))]) 100).getD vpEmpty).buy
              + 5 / 2
      ∧ ((dictGet? (compute_volume_profile ([((100 : ℚ), (0 : ℕ))] ++ [(100, 5)])) 100).getD
            vpEmpty).sell
          = ((dictGet? (compute_volume_profile [((100 : ℚ), (0 : ℕ))]) 100).getD vpEmpty).sell
              + (5 + 1) / 2) :=
  ⟨⟨by decide, by decide⟩,
    tie_split_remainder_to_sell [((100 : ℚ), (0 : ℕ))] 100 5 (by decide) (by decide)⟩

/-- C8: every BinaryPrice evaluation has `spread = yes_ask + no_ask` and
`arbitrage_opportunity ↔ spread < spread_threshold`; at `yes_ask = 0.49`,
`no_ask = 0.48`, `threshold = 0.995` (fees hard-coded to 0) the row is
`spread = 0.97`, `arbitrage = true`, `estimated_profit_pct = 300/97 ≈ 3.09`. -/
theorem binary_price_spread_arbitrage :
    (∀ yes_ask no_ask spread_threshold : ℚ,
        (binary_price_eval yes_ask no_ask spread_threshold).1 = yes_ask + no_ask
        ∧ ((binary_price_eval yes_ask no_ask spread_threshold).2.1 = true
            ↔ yes_ask + no_ask < spread_threshold))
    ∧ binary_price_eval (49/100) (48/100) (995/1000) = (97/100, true, 300/97)
    ∧ ((309/100 : ℚ) ≤ 300/97 ∧ (300/97 : ℚ) < 310/100) := by
  refine ⟨fun ya na thr => ⟨rfl, ?_⟩, ?_, by norm_num⟩
  · simp [binary_price_eval]
  · norm_num [binary_price_eval, Prod.ext_iff]

/-- C9 counterexample: with `yes_qty = 2`, `no_qty = 4`, entries 0.50 and
0.40, the code reports locked profit 0.4 while the claimed min-based formula
gives −0.6. -/
theorem locked_profit_counterexample :
    locked_profit 2 4 (1/2) (2/5) = 2/5
    ∧ min (2 : ℚ) 4 * 1 - (2 * (1/2) + 4 * (2/5)) = -(3/5)
    ∧ locked_profit 2 4 (1/2) (2/5) ≠ min (2 : ℚ) 4 * 1 - (2 * (1/2) + 4 * (2/5)) := by
  refine ⟨by norm_num [locked_profit], by norm_num [min_def], by norm_num [locked_profit, min_def]⟩

/-- C9 amended: `get_open_positions` computes
`locked_profit = (yes_qty + no_qty)/2 · 1.00 − (yes_qty·yes_entry + no_qty·no_entry)`
(average quantity, not minimum); this coincides with the claimed min-based
formula exactly when `yes_qty = no_qty`. -/
theorem locked_profit_avg_qty (yes_qty no_qty yes_entry_price no_entry_price : ℚ) :
    locked_profit yes_qty no_qty yes_entry_price no_entry_price
        = (yes_qty + no_qty) / 2 * 1
          - (yes_qty * yes_entry_price + no_qty * no_entry_price)
    ∧ (yes_qty = no_qty →
        locked_profit yes_qty no_qty yes_entry_price no_entry_price
          = min yes_qty no_qty * 1
            - (yes_qty * yes_entry_price + no_qty * no_entry_price)) := by
  constructor
  · rfl
  · rintro rfl
    unfold locked_profit
    dsimp only
    rw [min_self]
    ring

/-- C9 witness: the amended formula applied with equal quantities. -/
theorem locked_profit_avg_qty_witness :
    ((3 : ℚ) = 3)
    ∧ locked_profit 3 3 (1/2) (2/5)
        = min (3 : ℚ) 3 * 1 - (3 * (1/2) + 3 * (2/5)) :=
  ⟨rfl, (locked_profit_avg_qty 3 3 (1/2) (2/5)).2 rfl⟩

theorem c10_eval :
    evaluate_entry_signal s4_params "IMBALANCE_UP" 80 75 25 1500 100 2 "MSFT"
      = some c10_signal := by
  unfold evaluate_entry_signal
  dsimp only
  rw [s4_score, s4_flow]
  norm_num [s4_params, c10_signal, s4_signal]
  exact ⟨fun hcon => absurd hcon (by decide), by rfl⟩

/-- C10: with the portfolio already at `max_positions` (one slot, one open
position) and a valid entry signal available for another symbol, the engine's
entry phase is skipped entirely: no position is opened AND `signals_blocked`
is left untouched (it is never incremented anywhere in the code), contrary to
the claimed `signals_blocked[sym] += 1`. -/
theorem full_portfolio_blocks_without_counting :
    (c10_signalFor "MSFT").isSome = true
    ∧ process_entries c10_portfolio [("MSFT", c10_bar)] 600 1 c10_signalFor = c10_portfolio
    ∧ (process_entries c10_portfolio [("MSFT", c10_bar)] 600 1 c10_signalFor).signals_blocked
        = c10_portfolio.signals_blocked
    ∧ (process_entries c10_portfolio [("MSFT", c10_bar)] 600 1 c10_signalFor).positions.length
        = 1 := by
  have hslots : get_available_position_slots c10_portfolio = 0 := by decide
  have hmain : process_entries c10_portfolio [("MSFT", c10_bar)] 600 1 c10_signalFor
      = c10_portfolio := by
    unfold process_entries
    dsimp only
    rw [hslots]
    rw [if_neg (by simp)]
  have hsig : c10_signalFor "MSFT" = some c10_signal := by
    unfold c10_signalFor
    rw [if_pos rfl]
    exact c10_eval
  refine ⟨?_, hmain, by rw [hmain], by rw [hmain]; rfl⟩
  rw [hsig]
  rfl

end Trading
